import Mathlib

/-!
Verification of the EyeZen Detect repository against its specification.

The frontend (React/TypeScript) is embedded shallowly: every event handler
becomes a pure Lean function from its inputs (component props, state, and
the outcome of any awaited external call) to the state it settles in, and
every conditional render becomes a function into a small view datatype.
JavaScript strings are modelled as Lean strings whose operations
(startsWith, includes, trim, toLowerCase, split) are re-implemented over
the character list so that they compute by kernel reduction.

The Python backend (preprocess / predict / explain) is not part of the
checked-in sources; the definitions for it are modelled from the
specification and are marked as such in their doc comments.
-/

/-! ## JavaScript string primitives, modelled over the character list -/

/-- Model of list prefix test used for JS String.startsWith. -/
def isPrefixOfL : List Char → List Char → Bool
  | [], _ => true
  | _ :: _, [] => false
  | a :: as, b :: bs => a = b && isPrefixOfL as bs

/-- Model of JS String.startsWith. -/
def jsStartsWith (s pre : String) : Bool :=
  isPrefixOfL pre.toList s.toList

/-- Substring occurrence on character lists, for JS String.includes. -/
def hasSubList : List Char → List Char → Bool
  | [], pat => pat.isEmpty
  | c :: rest, pat => isPrefixOfL pat (c :: rest) || hasSubList rest pat

/-- Model of JS String.includes. -/
def jsIncludes (s pat : String) : Bool :=
  hasSubList s.toList pat.toList

/-- ASCII lower-casing of one character (JS toLowerCase on the app's ASCII data). -/
def lowerChar (c : Char) : Char :=
  if 'A' ≤ c && c ≤ 'Z' then Char.ofNat (c.toNat + 32) else c

/-- Model of JS String.toLowerCase as a character list. -/
def toLowerL (s : List Char) : List Char :=
  s.map lowerChar

/-- Model of JS String.trim (strip whitespace from both ends). -/
def jsTrim (s : String) : List Char :=
  ((s.toList.dropWhile Char.isWhitespace).reverse.dropWhile Char.isWhitespace).reverse

/-- JS word characters, the complement of the regex \W. -/
def isWordChar (c : Char) : Bool :=
  c.isAlphanum || c = '_'

/-- Split a character list at every character satisfying p (JS split on a
character-class regex; empty fragments are produced between adjacent
separators, exactly as in JS before the filter(Boolean) step). -/
def splitChars (p : Char → Bool) : List Char → List (List Char)
  | [] => [[]]
  | c :: rest =>
      let r := splitChars p rest
      if p c then [] :: r
      else
        match r with
        | [] => [[c]]
        | g :: gs => (c :: g) :: gs

/-! ## UploadSection (src/src/components/UploadSection.tsx)

`handleFiles` receives the dropped/selected files, looks for the first one
whose MIME type starts with image/, rejects with a toast when there is none
or when the selected image exceeds 10MB, and otherwise calls onImageUpload. -/

/-- A File as handleFiles consumes it: MIME type and byte size. -/
structure UploadFile where
  type : String
  size : Nat
deriving DecidableEq

/-- The predicate file.type.startsWith('image/') from handleFiles. -/
def isImageFile (f : UploadFile) : Bool :=
  jsStartsWith f.type "image/"

/-- Observable outcome of one handleFiles call: which toast fired, and
whether onImageUpload was invoked (and with which file). -/
inductive UploadOutcome where
  | invalidTypeToast
  | fileTooLargeToast
  | uploaded (f : UploadFile)
deriving DecidableEq

/-- Embedding of handleFiles (UploadSection.tsx lines 41-69). -/
def handleFiles (files : List UploadFile) : UploadOutcome :=
  match files.find? isImageFile with
  | none => UploadOutcome.invalidTypeToast
  | some imageFile =>
      if imageFile.size > 10 * 1024 * 1024 then UploadOutcome.fileTooLargeToast
      else UploadOutcome.uploaded imageFile

/-! ## The PredictionResult record (src/types, as populated by Index.tsx) -/

/-- Frontend prediction result. The fields beyond disease/confidence/heatmap
are populated from the API response and absent on the mock path. -/
structure PredictionResult where
  disease : String
  confidence : ℚ
  heatmap : Option String
  processingTime : Option ℚ
  imageQuality : Option String
  allPredictions : Option (List (String × ℚ))

/-! ## Index page (src/src/pages/Index.tsx)

`handleImageUpload` posts the image to /api/predict inside measureApiCall,
transforms the response on success, and on any failure (rejected fetch or
non-ok HTTP status, which is thrown) falls into the catch block. -/

/-- Payload of a successful /api/predict response, as read by Index.tsx. -/
structure ApiData where
  disease : String
  confidence : ℚ
  heatmap : Option String
  processing_time : ℚ
  image_quality : String
  all_predictions : List (String × ℚ)

/-- Outcome of the awaited fetch: success, non-ok HTTP status (thrown as an
Error by the handler), or a network-level rejection. -/
inductive ApiOutcome where
  | ok (data : ApiData)
  | httpError (status : Nat)
  | networkError (msg : String)

/-- State of the Index component that handleImageUpload touches. -/
structure IndexState where
  uploadedImage : Option String
  predictionResult : Option PredictionResult
  isLoading : Bool

/-- The response-to-frontend transformation inside the try block. -/
def transformApiData (d : ApiData) : PredictionResult :=
  { disease := d.disease
    confidence := d.confidence
    heatmap := d.heatmap
    processingTime := some d.processing_time
    imageQuality := some d.image_quality
    allPredictions := some d.all_predictions }

/-- The hard-coded mock results of the catch block in Index.tsx. -/
def mockResults : List PredictionResult :=
  [ { disease := "Diabetic Retinopathy", confidence := 89/100, heatmap := none,
      processingTime := none, imageQuality := none, allPredictions := none },
    { disease := "Glaucoma", confidence := 76/100, heatmap := none,
      processingTime := none, imageQuality := none, allPredictions := none },
    { disease := "Cataract", confidence := 92/100, heatmap := none,
      processingTime := none, imageQuality := none, allPredictions := none },
    { disease := "Normal", confidence := 95/100, heatmap := none,
      processingTime := none, imageQuality := none, allPredictions := none } ]

/-- mockResults[Math.floor(Math.random() * mockResults.length)]. -/
def mockAt (r : Fin 4) : PredictionResult :=
  mockResults.get (Fin.cast (by rfl) r)

/-- Embedding of handleImageUpload (Index.tsx lines 39-92). The awaited
fetch outcome and the Math.random draw of the catch block are inputs. -/
def handleImageUpload (st : IndexState) (imageUrl : String) (outcome : ApiOutcome)
    (randomPick : Fin 4) : IndexState :=
  let st1 := { st with uploadedImage := some imageUrl, isLoading := true }
  match outcome with
  | ApiOutcome.ok data =>
      { st1 with predictionResult := some (transformApiData data), isLoading := false }
  | ApiOutcome.httpError _ =>
      { st1 with isLoading := false, predictionResult := some (mockAt randomPick) }
  | ApiOutcome.networkError _ =>
      { st1 with isLoading := false, predictionResult := some (mockAt randomPick) }

/-! ## ResultsSection (src/unnamed/part_003)

The component returns null when neither an uploaded image nor a result is
present; otherwise it renders the section, with a loading card while
isLoading and, for a non-null result, the result cards (disease heading,
confidence badge/progress, heatmap-viewer button, report button). -/

/-- JS Math.round (round half away from zero is irrelevant here: the app
only rounds nonnegative confidences, where Math.round is floor of x+1/2). -/
def jsRound (q : ℚ) : Int :=
  ⌊q + 1/2⌋

/-- getResultColor from ResultsSection. -/
def getResultColor (disease : String) : String :=
  if toLowerL disease.toList = "normal".toList then "text-neon-green"
  else if hasSubList (toLowerL disease.toList) "diabetic".toList then "text-neon-orange"
  else "text-neon-pink"

/-- getResultIcon from ResultsSection. -/
def getResultIcon (disease : String) : String :=
  if toLowerL disease.toList = "normal".toList then "CheckCircle2" else "AlertCircle"

/-- What the main result card shows for a non-null result. -/
structure ResultCardView where
  icon : String
  colorClass : String
  diseaseText : String
  confidencePct : Int
  heatmapButtonDisabled : Bool
  heatmapButtonLabel : String

/-- Render outcome of ResultsSection: null, or the section with an optional
loading card and optional result cards. -/
inductive ResultsView where
  | nothing
  | rendered (loadingCard : Bool) (resultCards : Option ResultCardView)

/-- Embedding of the ResultsSection render function (part_003 lines 14-317). -/
def renderResultsSection (result : Option PredictionResult) (uploadedImage : Option String)
    (isLoading : Bool) : ResultsView :=
  if uploadedImage.isNone && result.isNone then ResultsView.nothing
  else
    ResultsView.rendered isLoading (result.map fun r =>
      { icon := getResultIcon r.disease
        colorClass := getResultColor r.disease
        diseaseText := r.disease
        confidencePct := jsRound (r.confidence * 100)
        heatmapButtonDisabled := r.heatmap.isNone
        heatmapButtonLabel :=
          match r.heatmap with
          | some _ => "View AI Heatmap"
          | none => "Heatmap Unavailable" })

/-! ## Performance monitoring (src/unnamed/part_002, utils/performance)

The PerformanceMonitor holds a Map from metric name to metric record and an
isEnabled flag fixed at construction from NODE_ENV. The JS Map is modelled
as an insertion-ordered association list with Map.set / Map.get semantics,
and performance.now() timestamps are passed in as rational inputs. -/

/-- One PerformanceMetric record. -/
structure PerformanceMetric where
  name : String
  startTime : ℚ
  endTime : Option ℚ
  duration : Option ℚ
deriving DecidableEq

/-- JS Map.set: replace in place when the key exists, append otherwise. -/
def mapSet {α : Type} : List (String × α) → String → α → List (String × α)
  | [], k, v => [(k, v)]
  | (k0, v0) :: rest, k, v =>
      if k0 = k then (k, v) :: rest else (k0, v0) :: mapSet rest k v

/-- JS Map.get. -/
def mapGet {α : Type} : List (String × α) → String → Option α
  | [], _ => none
  | (k0, v0) :: rest, k => if k0 = k then some v0 else mapGet rest k

/-- The PerformanceMonitor class state. -/
structure PerformanceMonitor where
  metrics : List (String × PerformanceMetric)
  isEnabled : Bool

/-- new PerformanceMonitor(): empty metrics map; isEnabled is the constant
process.env.NODE_ENV === 'development'. -/
def mkPerformanceMonitor (isEnabled : Bool) : PerformanceMonitor :=
  { metrics := [], isEnabled := isEnabled }

/-- Embedding of PerformanceMonitor.start (part_002 lines 86-93). -/
def PerformanceMonitor.start (m : PerformanceMonitor) (metricName : String)
    (now : ℚ) : PerformanceMonitor :=
  if !m.isEnabled then m
  else { m with metrics := mapSet m.metrics metricName
                  { name := metricName, startTime := now, endTime := none, duration := none } }

/-- Embedding of PerformanceMonitor.end (part_002 lines 98-114); named stop
here because end is a Lean keyword. Returns the updated monitor and the
method's return value (the duration, or undefined). -/
def PerformanceMonitor.stop (m : PerformanceMonitor) (metricName : String)
    (now : ℚ) : PerformanceMonitor × Option ℚ :=
  if !m.isEnabled then (m, none)
  else
    match mapGet m.metrics metricName with
    | none => (m, none)
    | some metric =>
        let duration := now - metric.startTime
        let metric2 := { metric with endTime := some now, duration := some duration }
        ({ m with metrics := mapSet m.metrics metricName metric2 }, some duration)

/-- Embedding of PerformanceMonitor.getMetrics (part_002 lines 119-121).
The JS filter keeps metrics with truthy duration, so an exactly-zero
duration is dropped along with the undefined ones. -/
def PerformanceMonitor.getMetrics (m : PerformanceMonitor) : List PerformanceMetric :=
  (m.metrics.map Prod.snd).filter fun metric =>
    match metric.duration with
    | some d => decide (d ≠ 0)
    | none => false

/-- Embedding of PerformanceMonitor.clear. -/
def PerformanceMonitor.clear (m : PerformanceMonitor) : PerformanceMonitor :=
  { m with metrics := [] }

/-- The monitor method calls a client can make, for stating invariants over
every reachable monitor state. -/
inductive MonOp where
  | start (metricName : String) (now : ℚ)
  | stop (metricName : String) (now : ℚ)
  | clear

/-- Apply one monitor call. -/
def applyMonOp (m : PerformanceMonitor) : MonOp → PerformanceMonitor
  | MonOp.start n t => m.start n t
  | MonOp.stop n t => (m.stop n t).1
  | MonOp.clear => m.clear

/-- Apply a call sequence. -/
def applyMonOps (m : PerformanceMonitor) (ops : List MonOp) : PerformanceMonitor :=
  ops.foldl applyMonOp m

/-- Embedding of measureApiCall (part_002 lines 271-284): the awaited
apiCall is its settled Except value, and the two performance.now() reads
are inputs. Both the try and the catch path end the metric and pass the
settlement through unchanged. -/
def measureApiCall {ε α : Type} (mon : PerformanceMonitor) (name : String)
    (apiCall : Except ε α) (t1 t2 : ℚ) : PerformanceMonitor × Except ε α :=
  let mon1 := mon.start ("api-" ++ name) t1
  match apiCall with
  | Except.ok result => ((mon1.stop ("api-" ++ name) t2).1, Except.ok result)
  | Except.error e => ((mon1.stop ("api-" ++ name) t2).1, Except.error e)

/-! ## ChatBot (src/unnamed/part_006)

handleSendMessage guards on empty trimmed input or a pending reply, then
appends the user message, picks the bot reply from the FAQ table (or the
fallback logic), and appends exactly one bot message. -/

/-- Chat message type tag. -/
inductive MsgType where
  | user
  | bot
deriving DecidableEq

/-- One chat message; Date timestamps and Date.now ids are Nats. -/
structure Message where
  id : String
  type : MsgType
  content : String
  timestamp : Nat
deriving DecidableEq

/-- The FAQ table of ChatBot, in source order (Object.entries order). -/
def FAQ : List (String × String) :=
  [ ("diseases", "Our AI can help detect several eye diseases, including diabetic retinopathy, glaucoma, and cataracts. Upload a clear retinal image to get started."),
    ("what diseases", "The main diseases detected by our AI are diabetic retinopathy, glaucoma, and cataracts. We are working to expand this list in the future!"),
    ("can be detected", "Currently, our AI detects diabetic retinopathy, glaucoma, and cataracts from retinal images."),
    ("detect", "Our AI is designed to detect diabetic retinopathy, glaucoma, and cataracts. Please upload a retinal image for analysis."),
    ("diabetic retinopathy", "Diabetic retinopathy is a diabetes complication that affects eyes. It\x27s caused by damage to blood vessels in the retina. Our AI can detect signs of this condition, but professional diagnosis is essential."),
    ("glaucoma", "Glaucoma is a group of eye conditions that damage the optic nerve, often due to high eye pressure. Early detection is crucial as it can cause gradual vision loss without symptoms."),
    ("cataract", "Cataracts cause clouding of the eye\x27s natural lens, leading to blurry vision. They\x27re common with aging and can be treated with surgery. Our AI can identify cataract formations in retinal images."),
    ("how does ai work", "Our AI uses a deep learning model (EfficientNetB0) trained on thousands of retinal images. It analyzes patterns in your uploaded image to detect signs of various eye diseases with 89% accuracy."),
    ("how ai works", "Our AI uses advanced deep learning to analyze retinal images and detect diseases with high accuracy."),
    ("accuracy", "Our AI model achieves 89% accuracy on validation datasets. However, results should always be confirmed by a qualified eye care professional."),
    ("ai accuracy", "The AI is about 89% accurate on test data, but always consult a doctor for a final diagnosis."),
    ("upload image", "To upload an image: 1) Click the upload area or drag & drop your retinal image 2) Ensure it\x27s a clear fundus photograph 3) Wait for AI analysis 4) Review results and download report if needed."),
    ("how to upload", "Click the upload area or drag and drop your retinal image. Make sure the image is clear for best results."),
    ("how to use", "Upload a clear retinal image, wait for the AI to analyze it, and review the results. You can also ask me about eye diseases or the AI itself!"),
    ("hello", "Hello! How can I assist you with eye disease detection or using our AI tool today?"),
    ("hi", "Hi there! Ask me anything about eye diseases, our AI, or how to use this tool."),
    ("help", "I\x27m here to help! You can ask about diseases, how the AI works, or how to use the tool.") ]

/-- The flexible FAQ matching loop of handleSendMessage: first entry whose
keyword shares a token with the input, is a substring of the input, or has
a token that is a substring of the input. -/
def faqLookup (input : String) : Option String :=
  let lowerInput := toLowerL input.toList
  let tokens := (splitChars (fun c => !isWordChar c) lowerInput).filter (fun t => !t.isEmpty)
  (FAQ.find? fun kv =>
    let keywordTokens := (splitChars (fun c => !isWordChar c) kv.1.toList).filter (fun t => !t.isEmpty)
    tokens.any (fun token => keywordTokens.contains token) ||
      hasSubList lowerInput kv.1.toList ||
      keywordTokens.any (fun kt => hasSubList lowerInput kt)).map Prod.snd

/-- The fallback bot reply. -/
def chatFallbackMessage : String :=
  "Sorry, I couldn\x27t find an answer to that. Please try rephrasing your question or ask about eye diseases, AI, or how to use this tool."

/-- The reply used when the previous bot message was already the fallback. -/
def chatStillLearningMessage : String :=
  "I\x27m still learning! Please ask about eye diseases, our AI, or how to use this tool."

/-- ChatBot component state touched by handleSendMessage. -/
structure ChatState where
  messages : List Message
  inputValue : String
  loading : Bool

/-- The user message appended by handleSendMessage (id from Date.now()). -/
def chatUserMessage (st : ChatState) (now : Nat) : Message :=
  { id := toString now, type := MsgType.user, content := st.inputValue, timestamp := now }

/-- The bot reply content: FAQ hit, or the fallback, or the still-learning
variant when the last bot message (in the pre-send message list, which is
what the stale closure reads) was already the fallback. -/
def chatBotReplyContent (st : ChatState) : String :=
  match faqLookup st.inputValue with
  | some response => response
  | none =>
      let lastBotMsg := ((st.messages.filter fun m => decide (m.type = MsgType.bot)).getLast?).map Message.content
      if lastBotMsg = some chatFallbackMessage then chatStillLearningMessage
      else chatFallbackMessage

/-- The bot message appended by handleSendMessage (id from Date.now()+1). -/
def chatBotMessage (st : ChatState) (now : Nat) : Message :=
  { id := toString (now + 1), type := MsgType.bot, content := chatBotReplyContent st, timestamp := now }

/-- Embedding of handleSendMessage (part_006 lines 78-119), as the state the
component settles in once the awaited reply delay has resolved. -/
def handleSendMessage (st : ChatState) (now : Nat) : ChatState :=
  if (jsTrim st.inputValue).isEmpty || st.loading then st
  else
    { messages := st.messages ++ [chatUserMessage st now, chatBotMessage st now]
      inputValue := ""
      loading := false }

/-! ## Backend preprocessor, modelled from the spec

The repository's Python backend (backend/utils/image_preprocessor.py and
friends, per the README file layout) is not among the checked-in sources,
so the serving core is modelled from the specification, section 4.1. -/

/-- Modelled from the spec: a decoded raw image owned by the request.
Pixel values are 8-bit (Fin 256); the pixel function is total, with reads
only ever made inside the declared bounds. The missing source is
backend/utils/image_preprocessor.py. -/
structure RawImage where
  height : Nat
  width : Nat
  channels : Nat
  pixel : Nat → Nat → Nat → Fin 256

/-- A decodable image the preprocessor accepts: positive dimensions and a
channel layout it can normalize (grayscale, RGB, or RGBA). -/
def RawImage.valid (img : RawImage) : Prop :=
  0 < img.height ∧ 0 < img.width ∧
    (img.channels = 1 ∨ img.channels = 3 ∨ img.channels = 4)

instance (img : RawImage) : Decidable img.valid := by
  unfold RawImage.valid
  infer_instance

/-- A 3-channel pixel grid (the canonical color space of spec step 1). -/
def Img3 : Type := Nat → Nat → Fin 3 → Fin 256

/-- Modelled from the spec, step 1: convert to a canonical 3-channel space —
replicate a grayscale channel, drop an alpha channel. -/
def toRGB (img : RawImage) : Img3 := fun y x c =>
  if img.channels = 1 then img.pixel y x 0 else img.pixel y x c.val

/-- Saturating cast to an 8-bit value (uint8 arithmetic of the enhancement
stages). -/
def sat (n : Int) : Fin 256 :=
  ⟨min (max n 0).toNat 255, Nat.lt_succ_of_le (Nat.min_le_right _ _)⟩

/-- Border-replicating pixel read for kernel filters. -/
def pget (h w : Nat) (p : Img3) (y x : Int) (c : Fin 3) : Fin 256 :=
  p (min (max y 0).toNat (h - 1)) (min (max x 0).toNat (w - 1)) c

/-- Luminance of a pixel (mean of the three channels). -/
def lum (p : Img3) (y x : Nat) : Nat :=
  ((p y x 0).val + (p y x 1).val + (p y x 2).val) / 3

/-- Modelled from the spec, step 2: CLAHE-equivalent localized contrast
normalization — per-tile (8×8 grid) histogram equalization of the luminance
channel, the channels rescaled by the equalized-to-original luminance ratio
(+1 on both sides guards the divide; the clip-limit refinement of real
CLAHE is a tunable policy detail the spec leaves open). -/
def claheEnhance (h w : Nat) (p : Img3) : Img3 := fun y x c =>
  let th := max 1 (h / 8)
  let tw := max 1 (w / 8)
  let ys := ((List.range th).map fun d => (y / th) * th + d).filter (· < h)
  let xs := ((List.range tw).map fun d => (x / tw) * tw + d).filter (· < w)
  let v := lum p y x
  let cnt := (ys.map fun yy => ((xs.filter fun xx => lum p yy xx ≤ v).length)).sum
  let tot := ys.length * xs.length
  let eqLum := (cnt * 255) / max 1 tot
  sat ((((p y x c).val : Int) * ((eqLum : Int) + 1)) / ((v : Int) + 1))

/-- Binomial weights of the 5×5 Gaussian kernel row. -/
def gaussW (i : Nat) : Int :=
  match i with
  | 0 => 1
  | 1 => 4
  | 2 => 6
  | 3 => 4
  | _ => 1

/-- Modelled from the spec, step 2: 5×5 Gaussian noise-reduction blur. -/
def gaussianBlur (h w : Nat) (p : Img3) : Img3 := fun y x c =>
  let s : Int :=
    ((List.range 5).map fun i =>
      ((List.range 5).map fun j =>
        gaussW i * gaussW j * ((pget h w p ((y : Int) + i - 2) ((x : Int) + j - 2) c).val : Int)).sum).sum
  sat (s / 256)

/-- Modelled from the spec, step 2: unsharp masking — the pre-blur image
minus the blurred one, added back with gain 0.5 (addWeighted with weights
1.5 and -0.5), saturated to uint8. -/
def unsharpMask (orig blurred : Img3) : Img3 := fun y x c =>
  sat ((3 * ((orig y x c).val : Int) - ((blurred y x c).val : Int)) / 2)

/-- The enhancement pipeline in spec order: CLAHE, blur, unsharp. -/
def enhanceImage (h w : Nat) (p : Img3) : Img3 :=
  let pc := claheEnhance h w p
  let pb := gaussianBlur h w pc
  unsharpMask pc pb

/-- A circular retinal-disk boundary reported by the detector. -/
structure RoiCircle where
  cy : Nat
  cx : Nat
  r : Nat

/-- Modelled from the spec, step 3: crop to the bounding square of a
confidently detected circle with a small margin, clamped to the frame;
keep the full frame when no circle was found. The Hough-style detector
itself is a best-effort heuristic whose verdict is this function's input,
so every theorem below holds for every possible detector outcome. -/
def applyROI (h w : Nat) (p : Img3) (roi : Option RoiCircle) : Nat × Nat × Img3 :=
  match roi with
  | none => (h, w, p)
  | some disk =>
      let margin := disk.r / 10 + 5
      let y1 := disk.cy - (disk.r + margin)
      let y2 := min (h - 1) (disk.cy + disk.r + margin)
      let x1 := disk.cx - (disk.r + margin)
      let x2 := min (w - 1) (disk.cx + disk.r + margin)
      (y2 - y1 + 1, x2 - x1 + 1, fun y x ch => p (y1 + y) (x1 + x) ch)

/-- Modelled from the spec, step 4: bilinear sample of the source grid at
target cell (i, j); the four neighbor weights are the fractional parts of
the source coordinate, so the sample is a convex combination of 8-bit
values. -/
def bilinearAt (h w : Nat) (p : Img3) (i j : Fin 224) (c : Fin 3) : ℚ :=
  let sy : ℚ := (i.val : ℚ) * ((h : ℚ) - 1) / 223
  let sx : ℚ := (j.val : ℚ) * ((w : ℚ) - 1) / 223
  let y0 : Nat := ⌊sy⌋.toNat
  let x0 : Nat := ⌊sx⌋.toNat
  let dy : ℚ := Int.fract sy
  let dx : ℚ := Int.fract sx
  let yA := min y0 (h - 1)
  let yB := min (y0 + 1) (h - 1)
  let xA := min x0 (w - 1)
  let xB := min (x0 + 1) (w - 1)
  (1 - dy) * (1 - dx) * ((p yA xA c).val : ℚ) + (1 - dy) * dx * ((p yA xB c).val : ℚ) +
    dy * (1 - dx) * ((p yB xA c).val : ℚ) + dy * dx * ((p yB xB c).val : ℚ)

/-- Modelled from the spec, step 4: resize to 224×224, convert to float,
scale into [0,1]. The tensor is the 224×224×3 nested list of samples. -/
def resizeNormalize (h w : Nat) (p : Img3) : List (List (List ℚ)) :=
  List.ofFn fun i : Fin 224 =>
    List.ofFn fun j : Fin 224 =>
      List.ofFn fun c : Fin 3 =>
        bilinearAt h w p i j c / 255

/-- The four-tier quality verdict. -/
inductive QualityVerdict where
  | poor
  | fair
  | good
  | excellent
deriving DecidableEq

/-- Modelled from the spec: the QualityReport derived once per request. -/
structure QualityReport where
  sharpness : ℚ
  brightness : ℚ
  contrast : ℚ
  verdict : QualityVerdict

/-- Luminance with clamped coordinates, for whole-grid statistics. -/
def lumC (h w : Nat) (p : Img3) (y x : Nat) : ℚ :=
  (lum p (min y (h - 1)) (min x (w - 1)) : ℚ)

/-- Mean of a value list; the divisor is floored at one so fully degenerate
grids cannot divide by zero (spec edge case). -/
def listMean (xs : List ℚ) : ℚ :=
  xs.sum / (max 1 xs.length : ℚ)

/-- Variance of a value list, same divide-by-zero guard. -/
def listVariance (xs : List ℚ) : ℚ :=
  listMean (xs.map fun v => (v - listMean xs) ^ 2)

/-- Laplacian response at every grid cell (4-neighbor edge filter). -/
def laplacianValues (h w : Nat) (p : Img3) : List ℚ :=
  (((List.range h).map fun y =>
    (List.range w).map fun x =>
      4 * lumC h w p y x - lumC h w p (y + 1) x - lumC h w p (y - 1) x -
        lumC h w p y (x + 1) - lumC h w p y (x - 1))).flatten

/-- All luminance values of the grid. -/
def luminanceValues (h w : Nat) (p : Img3) : List ℚ :=
  (((List.range h).map fun y => (List.range w).map fun x => lumC h w p y x)).flatten

/-- Modelled from the spec, step 5: sharpness is the Laplacian variance,
brightness the mean luminance, contrast the luminance spread (kept on the
variance scale, which orders identically to the standard deviation); the
verdict maps the three scores through fixed policy thresholds into the
four tiers. -/
def qualityReport (h w : Nat) (p : Img3) : QualityReport :=
  let sharpness := listVariance (laplacianValues h w p)
  let brightness := listMean (luminanceValues h w p)
  let contrast := listVariance (luminanceValues h w p)
  let score :=
    (if 100 < sharpness then 1 else 0) +
      (if 50 ≤ brightness ∧ brightness ≤ 200 then 1 else 0) +
      (if 400 < contrast then 1 else 0)
  { sharpness := sharpness
    brightness := brightness
    contrast := contrast
    verdict :=
      if score = 3 then QualityVerdict.excellent
      else if score = 2 then QualityVerdict.good
      else if score = 1 then QualityVerdict.fair
      else QualityVerdict.poor }

/-- The preprocessor's typed fatal errors (spec section 7). -/
inductive PreprocessError where
  | invalidImage
  | unsupportedFormat
deriving DecidableEq

/-- Modelled from the spec, section 4.1: preprocess(rawImage) ->
(NormalizedTensor, QualityReport), failing with InvalidImageError when the
bytes did not decode to a pixel grid (degenerate dimensions) and
UnsupportedFormatError when the channel layout cannot be normalized. The
ROI detector's outcome is an explicit input (see applyROI). -/
def preprocess (img : RawImage) (roi : Option RoiCircle) :
    Except PreprocessError (List (List (List ℚ)) × QualityReport) :=
  if img.height = 0 ∨ img.width = 0 then Except.error PreprocessError.invalidImage
  else if img.channels = 1 ∨ img.channels = 3 ∨ img.channels = 4 then
    let p0 := toRGB img
    let p1 := enhanceImage img.height img.width p0
    match applyROI img.height img.width p1 roi with
    | (h2, w2, p2) => Except.ok (resizeNormalize h2 w2 p2, qualityReport h2 w2 p2)
  else Except.error PreprocessError.unsupportedFormat

/-! ## Backend explanation generator, modelled from the spec

The Grad-CAM / fallback explanation code (backend/utils/visualization.py
per the README layout) is also missing from the checked-in sources and is
modelled from spec sections 4.3 and 9. -/

/-- Modelled from the spec: the activations and gradients of a named
intermediate stage, as delivered by the model wrapper's capability
interface (spec section 9). -/
structure GradData where
  gh : Nat
  gwd : Nat
  depth : Nat
  acts : Nat → Nat → Nat → ℚ
  grads : Nat → Nat → Nat → ℚ

/-- Modelled from the spec: the model handle passed into the Explanation
Generator — its layer names, and the capability returning activation and
gradient of a named stage, with none when the runtime has no gradient
support for it. -/
structure ModelHandle where
  layers : List String
  gradientAt : String → List (List (List ℚ)) → Option GradData

/-- The late convolutional layer Grad-CAM targets: the last layer whose
name contains conv (spec section 4.2 shapes which names are valid). -/
def findTargetLayer (m : ModelHandle) : Option String :=
  m.layers.reverse.find? fun nm => jsIncludes nm "conv"

/-- A 2D saliency map normalized into [0,1]. -/
structure Heatmap where
  hh : Nat
  hw : Nat
  val : Nat → Nat → ℚ

/-- Bilinear sample of an arbitrary rational grid, for the upsample step. -/
def bilinearSampleQ (h w : Nat) (f : Nat → Nat → ℚ) (bigH bigW : Nat) (i j : Nat) : ℚ :=
  let sy : ℚ := (i : ℚ) * ((h : ℚ) - 1) / (max 1 (bigH - 1) : ℚ)
  let sx : ℚ := (j : ℚ) * ((w : ℚ) - 1) / (max 1 (bigW - 1) : ℚ)
  let y0 : Nat := ⌊sy⌋.toNat
  let x0 : Nat := ⌊sx⌋.toNat
  let dy : ℚ := Int.fract sy
  let dx : ℚ := Int.fract sx
  let yA := min y0 (h - 1)
  let yB := min (y0 + 1) (h - 1)
  let xA := min x0 (w - 1)
  let xB := min (x0 + 1) (w - 1)
  (1 - dy) * (1 - dx) * f yA xA + (1 - dy) * dx * f yA xB +
    dy * (1 - dx) * f yB xA + dy * dx * f yB xB

/-- Modelled from the spec, primary strategy steps 3-5: per-channel weights
by spatial averaging of the gradient, weighted activation sum, rectification,
normalization to [0,1] by the map's maximum (zero map when the maximum is
not positive, guarding the divide). -/
def gradCamHeatmap (g : GradData) : Heatmap :=
  let area := max 1 (g.gh * g.gwd)
  let weight : Nat → ℚ := fun ch =>
    (((List.range g.gh).map fun y => ((List.range g.gwd).map fun x => g.grads y x ch).sum).sum) / (area : ℚ)
  let cam : Nat → Nat → ℚ := fun y x =>
    max 0 (((List.range g.depth).map fun ch => weight ch * g.acts y x ch).sum)
  let vals := (((List.range g.gh).map fun y => (List.range g.gwd).map fun x => cam y x)).flatten
  let mx := vals.foldl max 0
  { hh := g.gh, hw := g.gwd,
    val := fun y x => if mx ≤ 0 then 0 else cam y x / mx }

/-- Upsample a heatmap to the original image resolution (spec step 5). -/
def upsampleHeatmap (hm : Heatmap) (bigH bigW : Nat) : Heatmap :=
  { hh := bigH, hw := bigW,
    val := fun i j => bilinearSampleQ hm.hh hm.hw hm.val bigH bigW i j }

/-- Modelled from the spec: the Grad-CAM strategy — fails when no suitable
layer exists or the runtime cannot produce gradients for it; on success the
normalized map is upsampled to the original resolution. Returns the layer
name used, recorded in the artifact. -/
def gradCamStrategy (m : ModelHandle) (t : List (List (List ℚ))) (img : RawImage) :
    Except String (Heatmap × String) :=
  match findTargetLayer m with
  | none => Except.error "layer not found"
  | some layerName =>
      match m.gradientAt layerName t with
      | none => Except.error "gradient capture unavailable"
      | some g => Except.ok (upsampleHeatmap (gradCamHeatmap g) img.height img.width, layerName)

/-- Modelled from the spec: the fallback strategy — a coarse saliency proxy
from the raw pixel intensity gradient magnitude of the input image itself,
no model involvement, normalized the same way. -/
def pixelGradientHeatmap (img : RawImage) : Heatmap :=
  let p := toRGB img
  let l : Nat → Nat → ℚ := fun y x => lumC img.height img.width p y x
  let gmag : Nat → Nat → ℚ := fun y x => |l (y + 1) x - l y x| + |l y (x + 1) - l y x|
  let vals := (((List.range img.height).map fun y =>
    (List.range img.width).map fun x => gmag y x)).flatten
  let mx := vals.foldl max 0
  { hh := img.height, hw := img.width,
    val := fun y x => if mx ≤ 0 then 0 else gmag y x / mx }

/-- The fallback strategy as a strategy-list entry. -/
def fallbackStrategy (img : RawImage) : Except String (Heatmap × String) :=
  Except.ok (pixelGradientHeatmap img, "pixel-gradient-fallback")

/-- One panel of the composed multi-panel figure (spec rendering step). -/
inductive Panel where
  | original (img : RawImage)
  | heat (hm : Heatmap)
  | overlay (img : RawImage) (hm : Heatmap)
  | contours (hm : Heatmap) (threshold : ℚ)
  | histogram (values : List ℚ)
  | statsPanel (maxActivation : ℚ) (coverage : ℚ)

/-- Modelled from the spec: the figure encoder (matplotlib/PNG/base64 in
the real backend) is an external capability that may fail; a rendering
failure is one of the individually caught failure cases. -/
structure RenderEnv where
  encode : List Panel → Option String

/-- The heatmap artifact: encoded figure plus the layer that produced it. -/
structure HeatmapArtifact where
  imageBase64 : String
  layerName : String

/-- All heatmap cell values. -/
def heatValues (hm : Heatmap) : List ℚ :=
  (((List.range hm.hh).map fun y => (List.range hm.hw).map fun x => hm.val y x)).flatten

/-- The smallest value at or above the 80th percentile of the list (the
high-percentile contour threshold of the rendering step). -/
def percentile80 (vals : List ℚ) : ℚ :=
  let n := vals.length
  let candidates := vals.filter fun v => decide (n * 4 ≤ (vals.filter fun u => decide (u ≤ v)).length * 5)
  match candidates with
  | [] => 0
  | c :: cs => cs.foldl min c

/-- Modelled from the spec: compose the six-panel figure (original image,
raw heatmap, alpha blend, contour overlay at a high percentile, intensity
histogram, summary statistics) and encode it; an encoder fault is caught as
a rendering failure. -/
def renderHeatmap (env : RenderEnv) (img : RawImage) (hm : Heatmap) (layerName : String) :
    Except String HeatmapArtifact :=
  let vals := heatValues hm
  let thr := percentile80 vals
  let coverage : ℚ := ((vals.filter fun v => decide (thr ≤ v)).length : ℚ) / (max 1 vals.length : ℚ)
  let panels : List Panel :=
    [Panel.original img, Panel.heat hm, Panel.overlay img hm, Panel.contours hm thr,
      Panel.histogram vals, Panel.statsPanel (vals.foldl max 0) coverage]
  match env.encode panels with
  | none => Except.error "rendering failed"
  | some bytes => Except.ok { imageBase64 := bytes, layerName := layerName }

/-- The Grad-CAM strategy followed by rendering, as one result-or-failure. -/
def attemptGradCam (env : RenderEnv) (m : ModelHandle) (t : List (List (List ℚ)))
    (img : RawImage) : Except String HeatmapArtifact :=
  match gradCamStrategy m t img with
  | Except.error e => Except.error e
  | Except.ok (hm, layerName) => renderHeatmap env img hm layerName

/-- The pixel-gradient fallback followed by rendering. -/
def attemptFallback (env : RenderEnv) (img : RawImage) : Except String HeatmapArtifact :=
  match fallbackStrategy img with
  | Except.error e => Except.error e
  | Except.ok (hm, layerName) => renderHeatmap env img hm layerName

/-- Whether a strategy attempt failed. -/
def isFailure {ε α : Type} : Except ε α → Bool
  | Except.error _ => true
  | Except.ok _ => false

/-- Modelled from the spec, section 4.3: explain(model, tensor,
originalImage) tries the ordered strategies, uses the first success, and
degrades to none when every attempt fails — every failure is caught, none
is propagated to the caller. -/
def explain (env : RenderEnv) (m : ModelHandle) (t : List (List (List ℚ)))
    (img : RawImage) : Option HeatmapArtifact :=
  match attemptGradCam env m t img with
  | Except.ok artifact => some artifact
  | Except.error _ =>
      match attemptFallback env img with
      | Except.ok artifact => some artifact
      | Except.error _ => none

/-- The upload format whitelist as the spec words it (formats JPG/PNG/JPEG),
stated as the corresponding MIME types; this definition follows the spec,
not the source, and exists only to compare the two. -/
def specAllowedFormat (mime : String) : Bool :=
  mime = "image/jpeg" || mime = "image/jpg" || mime = "image/png"

/-! ## Shared lemmas -/

/-- find? at the first element of the suffix when the prefix all fails p. -/
theorem list_find?_append_first {α : Type} (p : α → Bool) (pre : List α) (f : α)
    (post : List α) (hpre : ∀ g ∈ pre, p g = false) (hf : p f = true) :
    (pre ++ f :: post).find? p = some f := by
  induction pre with
  | nil => simp [List.find?, hf]
  | cons g gs ih =>
      have hg : p g = false := hpre g (by simp)
      simp only [List.cons_append, List.find?, hg]
      exact ih fun x hx => hpre x (by simp [hx])

/-- Map.get after Map.set at the same key. -/
theorem mapGet_mapSet {α : Type} (l : List (String × α)) (k : String) (v : α) :
    mapGet (mapSet l k v) k = some v := by
  induction l with
  | nil => simp [mapSet, mapGet]
  | cons kv rest ih =>
      obtain ⟨k0, v0⟩ := kv
      by_cases h : k0 = k
      · simp [mapSet, mapGet, h]
      · simp [mapSet, mapGet, h, ih]

/-! ## Claim theorems -/

/-- C1: for every non-null PredictionResult, ResultsSection renders the
result cards with the disease label and rounded confidence, whether or not
a heatmap is present; an absent heatmap only disables the heatmap-viewer
button and relabels it Heatmap Unavailable, and no error state replaces the
result. -/
theorem resultsSection_shows_result_regardless_of_heatmap
    (r : PredictionResult) (uploadedImage : Option String) (isLoading : Bool) :
    ∃ v : ResultCardView,
      renderResultsSection (some r) uploadedImage isLoading
          = ResultsView.rendered isLoading (some v) ∧
        v.diseaseText = r.disease ∧
        v.confidencePct = jsRound (r.confidence * 100) ∧
        v.heatmapButtonDisabled = r.heatmap.isNone ∧
        v.heatmapButtonLabel = (match r.heatmap with
          | some _ => "View AI Heatmap"
          | none => "Heatmap Unavailable") := by
  refine ⟨{ icon := getResultIcon r.disease, colorClass := getResultColor r.disease,
            diseaseText := r.disease, confidencePct := jsRound (r.confidence * 100),
            heatmapButtonDisabled := r.heatmap.isNone,
            heatmapButtonLabel := match r.heatmap with
              | some _ => "View AI Heatmap"
              | none => "Heatmap Unavailable" }, ?_, rfl, rfl, rfl, rfl⟩
  simp [renderResultsSection]

/-- C2: contrary to the propagation policy, a failed /api/predict request
does not leave the prediction result unset — the catch block substitutes a
fabricated mock disease/confidence pair (here: HTTP 400 and random draw 0
produce Diabetic Retinopathy at 0.89). -/
theorem handleImageUpload_fabricates_result_on_failure :
    (handleImageUpload { uploadedImage := none, predictionResult := none, isLoading := false }
        "blob:retina" (ApiOutcome.httpError 400) 0).predictionResult
      = some { disease := "Diabetic Retinopathy", confidence := 89/100, heatmap := none,
               processingTime := none, imageQuality := none, allPredictions := none } := rfl

/-- C3: when handleFiles has selected an image file, it rejects with the
File-too-large toast exactly when the file exceeds 10·1024·1024 bytes, and
calls onImageUpload with the file otherwise — the 10MB boundary itself is
accepted. -/
theorem handleFiles_size_limit (files : List UploadFile) (f : UploadFile)
    (h : files.find? isImageFile = some f) :
    handleFiles files =
      (if f.size > 10 * 1024 * 1024 then UploadOutcome.fileTooLargeToast
       else UploadOutcome.uploaded f) := by
  unfold handleFiles
  rw [h]

/-- Witness for C3 at the boundary: a 10485760-byte PNG is accepted. -/
theorem handleFiles_size_limit_witness :
    ([⟨"image/png", 10485760⟩] : List UploadFile).find? isImageFile
        = some ⟨"image/png", 10485760⟩ ∧
      handleFiles [⟨"image/png", 10485760⟩]
        = UploadOutcome.uploaded ⟨"image/png", 10485760⟩ := by
  refine ⟨by decide, ?_⟩
  exact (handleFiles_size_limit [⟨"image/png", 10485760⟩] ⟨"image/png", 10485760⟩
    (by decide)).trans (by decide)

/-- C4 counterexample: a GIF — not one of the JPG/PNG/JPEG formats — is
accepted and onImageUpload is called with it. -/
theorem handleFiles_accepts_gif_counterexample :
    handleFiles [⟨"image/gif", 1000⟩] = UploadOutcome.uploaded ⟨"image/gif", 1000⟩ ∧
      specAllowedFormat "image/gif" = false := by
  decide

/-- C4 as amended: handleFiles accepts an uploaded file exactly when its
MIME type starts with image/ (any image format, not only JPG/PNG/JPEG),
within the size limit; only files without an image MIME type are rejected
with the Invalid-file-type toast, without calling onImageUpload. -/
theorem handleFiles_accepts_any_image_mime (f : UploadFile) :
    handleFiles [f] =
      (if isImageFile f then
        (if f.size > 10 * 1024 * 1024 then UploadOutcome.fileTooLargeToast
         else UploadOutcome.uploaded f)
       else UploadOutcome.invalidTypeToast) := by
  unfold handleFiles
  cases h : isImageFile f <;> simp [List.find?, h]

/-- C9: with several files, handleFiles behaves exactly as if given only
the first file whose MIME type starts with image/ — the remaining files are
ignored, and no Invalid-file-type rejection fires while an image file is
present. -/
theorem handleFiles_first_image_only (pre : List UploadFile) (f : UploadFile)
    (post : List UploadFile) (hpre : ∀ g ∈ pre, isImageFile g = false)
    (hf : isImageFile f = true) :
    handleFiles (pre ++ f :: post) = handleFiles [f] ∧
      handleFiles (pre ++ f :: post) ≠ UploadOutcome.invalidTypeToast := by
  have h1 : (pre ++ f :: post).find? isImageFile = some f :=
    list_find?_append_first isImageFile pre f post hpre hf
  have h2 : ([f] : List UploadFile).find? isImageFile = some f := by
    simp [List.find?, hf]
  have e1 : handleFiles (pre ++ f :: post) =
      (if f.size > 10 * 1024 * 1024 then UploadOutcome.fileTooLargeToast
       else UploadOutcome.uploaded f) := by
    unfold handleFiles
    rw [h1]
  have e2 : handleFiles [f] =
      (if f.size > 10 * 1024 * 1024 then UploadOutcome.fileTooLargeToast
       else UploadOutcome.uploaded f) := by
    unfold handleFiles
    rw [h2]
  rw [e1, e2]
  refine ⟨rfl, ?_⟩
  split <;> simp

/-- Witness for C9: a PDF before a PNG before a JPEG — only the PNG is
processed. -/
theorem handleFiles_first_image_only_witness :
    (∀ g ∈ ([⟨"application/pdf", 3⟩] : List UploadFile), isImageFile g = false) ∧
      isImageFile ⟨"image/png", 4⟩ = true ∧
      (handleFiles ([⟨"application/pdf", 3⟩] ++ ⟨"image/png", 4⟩ :: [⟨"image/jpeg", 5⟩])
          = handleFiles [⟨"image/png", 4⟩] ∧
        handleFiles ([⟨"application/pdf", 3⟩] ++ ⟨"image/png", 4⟩ :: [⟨"image/jpeg", 5⟩])
          ≠ UploadOutcome.invalidTypeToast) := by
  refine ⟨by decide, by decide, ?_⟩
  exact handleFiles_first_image_only [⟨"application/pdf", 3⟩] ⟨"image/png", 4⟩
    [⟨"image/jpeg", 5⟩] (by decide) (by decide)

/-- C10: handleSendMessage leaves the message list unchanged when the
trimmed input is empty or a reply is pending; otherwise it appends exactly
two messages — a user message carrying the input, then one bot message. -/
theorem handleSendMessage_guard_and_append (st : ChatState) (now : Nat) :
    ((handleSendMessage st now).messages =
      if (jsTrim st.inputValue).isEmpty || st.loading then st.messages
      else st.messages ++ [chatUserMessage st now, chatBotMessage st now]) ∧
      (chatUserMessage st now).content = st.inputValue ∧
      (chatUserMessage st now).type = MsgType.user ∧
      (chatBotMessage st now).type = MsgType.bot := by
  refine ⟨?_, rfl, rfl, rfl⟩
  unfold handleSendMessage
  split <;> simp_all

/-- C5: measureApiCall resolves to exactly what apiCall settles to — value
or rethrown error — and on an enabled monitor the api metric it started is
ended with the elapsed duration on both the success and the error path. -/
theorem measureApiCall_transparent_and_ends_metric {ε α : Type}
    (mon : PerformanceMonitor) (name : String) (apiCall : Except ε α) (t1 t2 : ℚ)
    (h : mon.isEnabled = true) :
    (measureApiCall mon name apiCall t1 t2).2 = apiCall ∧
      mapGet (measureApiCall mon name apiCall t1 t2).1.metrics ("api-" ++ name)
        = some { name := "api-" ++ name, startTime := t1,
                 endTime := some t2, duration := some (t2 - t1) } := by
  cases apiCall <;>
    simp [measureApiCall, PerformanceMonitor.start, PerformanceMonitor.stop, h, mapGet_mapSet]

/-- Witness for C5: an enabled monitor around a resolved call. -/
theorem measureApiCall_transparent_and_ends_metric_witness :
    (mkPerformanceMonitor true).isEnabled = true ∧
      ((measureApiCall (mkPerformanceMonitor true) "prediction"
          (Except.ok 1 : Except String Nat) 0 1).2 = Except.ok 1 ∧
        mapGet (measureApiCall (mkPerformanceMonitor true) "prediction"
            (Except.ok 1 : Except String Nat) 0 1).1.metrics ("api-" ++ "prediction")
          = some { name := "api-" ++ "prediction", startTime := 0,
                   endTime := some 1, duration := some (1 - 0) }) :=
  ⟨rfl, measureApiCall_transparent_and_ends_metric
    (mkPerformanceMonitor true) "prediction" (Except.ok 1 : Except String Nat) 0 1 rfl⟩

/-- A disabled monitor is unchanged by any single call that started with an
empty metrics map. -/
theorem applyMonOp_disabled_empty (m : PerformanceMonitor) (h : m.isEnabled = false)
    (hm : m.metrics = []) (op : MonOp) : applyMonOp m op = m := by
  cases op with
  | start n t => simp [applyMonOp, PerformanceMonitor.start, h]
  | stop n t => simp [applyMonOp, PerformanceMonitor.stop, h]
  | clear =>
      cases m
      simp_all [applyMonOp, PerformanceMonitor.clear]

/-- A disabled monitor with an empty metrics map stays itself under any
call sequence. -/
theorem applyMonOps_disabled_empty (ops : List MonOp) (m : PerformanceMonitor)
    (h : m.isEnabled = false) (hm : m.metrics = []) : applyMonOps m ops = m := by
  induction ops with
  | nil => rfl
  | cons op rest ih =>
      simp only [applyMonOps, List.foldl_cons] at *
      rw [applyMonOp_disabled_empty m h hm op]
      exact ih

/-- C8: with isEnabled false (NODE_ENV other than development), start
leaves the monitor unchanged, end returns undefined and changes nothing,
and from construction on the metrics map stays empty under every call
sequence, so getMetrics is always the empty list — nothing is recorded or
logged outside development builds. -/
theorem performanceMonitor_disabled_is_noop (m : PerformanceMonitor)
    (h : m.isEnabled = false) (metricName : String) (t : ℚ) (ops : List MonOp) :
    m.start metricName t = m ∧
      m.stop metricName t = (m, none) ∧
      (applyMonOps (mkPerformanceMonitor false) ops).metrics = [] ∧
      (applyMonOps (mkPerformanceMonitor false) ops).getMetrics = [] := by
  refine ⟨?_, ?_, ?_, ?_⟩
  · simp [PerformanceMonitor.start, h]
  · simp [PerformanceMonitor.stop, h]
  · rw [applyMonOps_disabled_empty ops (mkPerformanceMonitor false) rfl rfl]
    rfl
  · rw [applyMonOps_disabled_empty ops (mkPerformanceMonitor false) rfl rfl]
    rfl

/-- Witness for C8: the disabled monitor with one start, one stop and a
clear in the sequence. -/
theorem performanceMonitor_disabled_is_noop_witness :
    (mkPerformanceMonitor false).isEnabled = false ∧
      ((mkPerformanceMonitor false).start "index-page-load" 0 = mkPerformanceMonitor false ∧
        (mkPerformanceMonitor false).stop "index-page-load" 0 = (mkPerformanceMonitor false, none) ∧
        (applyMonOps (mkPerformanceMonitor false)
            [MonOp.start "a" 0, MonOp.stop "a" 1, MonOp.clear]).metrics = [] ∧
        (applyMonOps (mkPerformanceMonitor false)
            [MonOp.start "a" 0, MonOp.stop "a" 1, MonOp.clear]).getMetrics = []) :=
  ⟨rfl, performanceMonitor_disabled_is_noop (mkPerformanceMonitor false) rfl
    "index-page-load" 0 [MonOp.start "a" 0, MonOp.stop "a" 1, MonOp.clear]⟩

/-- An 8-bit pixel value cast to ℚ is nonnegative. -/
theorem pixQ_nonneg (v : Fin 256) : (0 : ℚ) ≤ (v.val : ℚ) :=
  Nat.cast_nonneg _

/-- An 8-bit pixel value cast to ℚ is at most 255. -/
theorem pixQ_le (v : Fin 256) : ((v.val : ℚ)) ≤ 255 := by
  exact_mod_cast Nat.lt_succ_iff.mp v.isLt

/-- A bilinear blend with weights from [0,1] of four values from [0,255]
stays in [0,255]. -/
theorem convexCombo_bounds (a b q1 q2 q3 q4 : ℚ) (ha0 : 0 ≤ a) (ha1 : a ≤ 1)
    (hb0 : 0 ≤ b) (hb1 : b ≤ 1)
    (h1 : 0 ≤ q1) (h1u : q1 ≤ 255) (h2 : 0 ≤ q2) (h2u : q2 ≤ 255)
    (h3 : 0 ≤ q3) (h3u : q3 ≤ 255) (h4 : 0 ≤ q4) (h4u : q4 ≤ 255) :
    0 ≤ (1 - a) * (1 - b) * q1 + (1 - a) * b * q2 + a * (1 - b) * q3 + a * b * q4 ∧
      (1 - a) * (1 - b) * q1 + (1 - a) * b * q2 + a * (1 - b) * q3 + a * b * q4 ≤ 255 := by
  have w1 : (0 : ℚ) ≤ (1 - a) * (1 - b) := mul_nonneg (by linarith) (by linarith)
  have w2 : (0 : ℚ) ≤ (1 - a) * b := mul_nonneg (by linarith) hb0
  have w3 : (0 : ℚ) ≤ a * (1 - b) := mul_nonneg ha0 (by linarith)
  have w4 : (0 : ℚ) ≤ a * b := mul_nonneg ha0 hb0
  constructor
  · have t1 := mul_nonneg w1 h1
    have t2 := mul_nonneg w2 h2
    have t3 := mul_nonneg w3 h3
    have t4 := mul_nonneg w4 h4
    linarith
  · have t1 : (1 - a) * (1 - b) * q1 ≤ (1 - a) * (1 - b) * 255 :=
      mul_le_mul_of_nonneg_left h1u w1
    have t2 : (1 - a) * b * q2 ≤ (1 - a) * b * 255 :=
      mul_le_mul_of_nonneg_left h2u w2
    have t3 : a * (1 - b) * q3 ≤ a * (1 - b) * 255 :=
      mul_le_mul_of_nonneg_left h3u w3
    have t4 : a * b * q4 ≤ a * b * 255 :=
      mul_le_mul_of_nonneg_left h4u w4
    have e : (1 - a) * (1 - b) * 255 + (1 - a) * b * 255 + a * (1 - b) * 255 + a * b * 255
        = (255 : ℚ) := by ring
    linarith

/-- Every bilinear sample of an 8-bit grid lies in [0,255], for any source
dimensions and any target cell. -/
theorem bilinearAt_bounds (h w : Nat) (p : Img3) (i j : Fin 224) (c : Fin 3) :
    0 ≤ bilinearAt h w p i j c ∧ bilinearAt h w p i j c ≤ 255 := by
  unfold bilinearAt
  exact convexCombo_bounds _ _ _ _ _ _
    (Int.fract_nonneg _) (le_of_lt (Int.fract_lt_one _))
    (Int.fract_nonneg _) (le_of_lt (Int.fract_lt_one _))
    (pixQ_nonneg _) (pixQ_le _) (pixQ_nonneg _) (pixQ_le _)
    (pixQ_nonneg _) (pixQ_le _) (pixQ_nonneg _) (pixQ_le _)

/-- resizeNormalize always yields the 224×224×3 nested list with every
entry in [0,1], for any source grid. -/
theorem resizeNormalize_shape_range (h w : Nat) (p : Img3) :
    (resizeNormalize h w p).length = 224 ∧
      ∀ row ∈ resizeNormalize h w p, row.length = 224 ∧
        ∀ cell ∈ row, cell.length = 3 ∧ ∀ v ∈ cell, 0 ≤ v ∧ v ≤ 1 := by
  unfold resizeNormalize
  refine ⟨List.length_ofFn _, ?_⟩
  intro row hrow
  rw [List.mem_ofFn] at hrow
  obtain ⟨i, rfl⟩ := hrow
  refine ⟨List.length_ofFn _, ?_⟩
  intro cell hcell
  rw [List.mem_ofFn] at hcell
  obtain ⟨j, rfl⟩ := hcell
  refine ⟨List.length_ofFn _, ?_⟩
  intro v hv
  rw [List.mem_ofFn] at hv
  obtain ⟨c, rfl⟩ := hv
  have hb := bilinearAt_bounds h w p i j c
  constructor
  · exact div_nonneg hb.1 (by norm_num)
  · rw [div_le_one (by norm_num)]
    linarith [hb.2]

/-- C6: for every decodable image of any resolution, aspect ratio, or
channel count (grayscale and alpha included) and every possible ROI
detector verdict, preprocess succeeds and yields a normalized tensor of
exactly 224×224×3 with every value in [0,1]. -/
theorem preprocess_yields_normalized_tensor (img : RawImage) (roi : Option RoiCircle)
    (hv : img.valid) :
    ∃ t r, preprocess img roi = Except.ok (t, r) ∧ t.length = 224 ∧
      ∀ row ∈ t, row.length = 224 ∧ ∀ cell ∈ row, cell.length = 3 ∧
        ∀ v ∈ cell, 0 ≤ v ∧ v ≤ 1 := by
  obtain ⟨h1, h2, h3⟩ := hv
  unfold preprocess
  rw [if_neg (by omega), if_pos h3]
  rcases roi with _ | disk
  · exact ⟨_, _, rfl, (resizeNormalize_shape_range _ _ _).1,
      (resizeNormalize_shape_range _ _ _).2⟩
  · exact ⟨_, _, rfl, (resizeNormalize_shape_range _ _ _).1,
      (resizeNormalize_shape_range _ _ _).2⟩

/-- Witness for C6: a 2×2 grayscale all-black image, no ROI circle. -/
theorem preprocess_yields_normalized_tensor_witness :
    (RawImage.mk 2 2 1 fun _ _ _ => 0).valid ∧
      (∃ t r, preprocess (RawImage.mk 2 2 1 fun _ _ _ => 0) none = Except.ok (t, r) ∧
        t.length = 224 ∧
        ∀ row ∈ t, row.length = 224 ∧ ∀ cell ∈ row, cell.length = 3 ∧
          ∀ v ∈ cell, 0 ≤ v ∧ v ≤ 1) :=
  ⟨⟨Nat.zero_lt_succ 1, Nat.zero_lt_succ 1, Or.inl rfl⟩,
    preprocess_yields_normalized_tensor (RawImage.mk 2 2 1 fun _ _ _ => 0) none
      ⟨Nat.zero_lt_succ 1, Nat.zero_lt_succ 1, Or.inl rfl⟩⟩

/-- C7: explain never propagates a failure — whenever the Grad-CAM attempt
fails (layer not found, no gradient support, or a rendering fault) and the
pixel-gradient fallback attempt fails too, explain returns none rather
than raising. -/
theorem explain_degrades_to_none (env : RenderEnv) (m : ModelHandle)
    (t : List (List (List ℚ))) (img : RawImage)
    (h1 : isFailure (attemptGradCam env m t img) = true)
    (h2 : isFailure (attemptFallback env img) = true) :
    explain env m t img = none := by
  unfold explain
  cases hg : attemptGradCam env m t img with
  | ok a =>
      rw [hg] at h1
      simp [isFailure] at h1
  | error e =>
      cases hf : attemptFallback env img with
      | ok a =>
          rw [hf] at h2
          simp [isFailure] at h2
      | error e2 => rfl

/-- Witness for C7: a stub model with no layers (so the target layer lookup
fails) together with a renderer whose encoder always faults (so the
fallback cannot be rendered either) — explain returns none. -/
theorem explain_degrades_to_none_witness :
    isFailure (attemptGradCam (RenderEnv.mk fun _ => none)
        (ModelHandle.mk [] fun _ _ => none) [] (RawImage.mk 1 1 1 fun _ _ _ => 0)) = true ∧
      isFailure (attemptFallback (RenderEnv.mk fun _ => none)
        (RawImage.mk 1 1 1 fun _ _ _ => 0)) = true ∧
      explain (RenderEnv.mk fun _ => none) (ModelHandle.mk [] fun _ _ => none) []
        (RawImage.mk 1 1 1 fun _ _ _ => 0) = none :=
  ⟨rfl, rfl, explain_degrades_to_none (RenderEnv.mk fun _ => none)
    (ModelHandle.mk [] fun _ _ => none) [] (RawImage.mk 1 1 1 fun _ _ _ => 0) rfl rfl⟩
